import Mathlib

/-
  Verification development for the Pomodoro timer core
  (TimerState as defined in src/src/ui/PomodoroView.ts).

  The TypeScript class fields currentHours, currentMinutes, currentSeconds,
  isPaused, phase, currentCycle and dailyStats become a Lean structure;
  each method becomes a pure function on that structure.  JavaScript numbers
  are modelled as Int (every value the program stores in them is an integer),
  and the JavaScript remainder operator, which truncates toward zero, is
  modelled as Int.tmod.  The VS Code globalState key/value store is modelled
  as a record of Option-valued slots, one per key the program uses.
-/

namespace Pomodoro

/-- Timer phase (enum TimerPhase in the source: WORK, BREAK, LONG_BREAK;
BREAK is rendered here as shortBreak because break is a reserved word). -/
inductive TimerPhase where
  | work
  | shortBreak
  | longBreak
  deriving DecidableEq, Repr

/-- Raw configuration values as stored in VS Code settings, before getConfig
clamps them (numeric entries may be zero or negative).  The customColors
entry is presentation-only and never read by the timer core, so it is
omitted. -/
structure RawConfig where
  workTime : Int
  breakTime : Int
  longBreakTime : Int
  cyclesBeforeLongBreak : Int
  playSound : Bool
  showNotifications : Bool
  autoStartNextPhase : Bool
  pauseOnInactivity : Bool
  inactivityThreshold : Int
  deriving DecidableEq, Repr

/-- Configuration as returned by TimerState.getConfig. -/
structure TimerConfig where
  workTime : Int
  breakTime : Int
  longBreakTime : Int
  cyclesBeforeLongBreak : Int
  playSound : Bool
  showNotifications : Bool
  autoStartNextPhase : Bool
  pauseOnInactivity : Bool
  inactivityThreshold : Int
  deriving DecidableEq, Repr

/-- TimerState.getConfig: reads the raw settings and clamps every numeric
entry with Math.max(1, value). -/
def getConfig (raw : RawConfig) : TimerConfig :=
  { workTime := max 1 raw.workTime
    breakTime := max 1 raw.breakTime
    longBreakTime := max 1 raw.longBreakTime
    cyclesBeforeLongBreak := max 1 raw.cyclesBeforeLongBreak
    playSound := raw.playSound
    showNotifications := raw.showNotifications
    autoStartNextPhase := raw.autoStartNextPhase
    pauseOnInactivity := raw.pauseOnInactivity
    inactivityThreshold := max 1 raw.inactivityThreshold }

/-- Daily statistics record (the dailyStats field of TimerState). -/
structure DailyStats where
  date : String
  completedWorkCycles : Int
  totalWorkTime : Int
  totalBreakTime : Int
  deriving DecidableEq, Repr

/-- The mutable fields of the TimerState class.  The timerInterval and
inactivity bookkeeping handles are host-scheduler resources with no
state-machine content and are not part of the model. -/
structure TimerState where
  currentHours : Int
  currentMinutes : Int
  currentSeconds : Int
  isPaused : Bool
  phase : TimerPhase
  currentCycle : Int
  dailyStats : DailyStats
  deriving DecidableEq, Repr

/-- Duration in minutes that the source loads for a given phase (the switch
statements in TimerState.restart and TimerState.switchPhase). -/
def phaseDuration (config : TimerConfig) : TimerPhase → Int
  | TimerPhase.work => config.workTime
  | TimerPhase.shortBreak => config.breakTime
  | TimerPhase.longBreak => config.longBreakTime

/-- TimerState.restart: reloads remaining with the configured duration for
the current phase and unpauses. -/
def restart (raw : RawConfig) (s : TimerState) : TimerState :=
  let config := getConfig raw
  { s with
      currentHours := 0
      currentMinutes :=
        match s.phase with
        | TimerPhase.work => config.workTime
        | TimerPhase.shortBreak => config.breakTime
        | TimerPhase.longBreak => config.longBreakTime
      currentSeconds := 0
      isPaused := false }

/-- TimerState.start: if remaining is all-zero it delegates to restart,
otherwise it only clears the paused flag. -/
def start (raw : RawConfig) (s : TimerState) : TimerState :=
  if s.currentHours = 0 ∧ s.currentMinutes = 0 ∧ s.currentSeconds = 0 then
    restart raw s
  else
    { s with isPaused := false }

/-- TimerState.pause: sets the paused flag. -/
def pause (s : TimerState) : TimerState :=
  { s with isPaused := true }

/-- TimerState.resume: delegates to start. -/
def resume (raw : RawConfig) (s : TimerState) : TimerState :=
  start raw s

/-- TimerState.reset: zeroes remaining, pauses, returns to WORK and clears
the cycle counter. -/
def reset (s : TimerState) : TimerState :=
  { s with
      currentHours := 0
      currentMinutes := 0
      currentSeconds := 0
      isPaused := true
      phase := TimerPhase.work
      currentCycle := 0 }

/-- TimerState.tick: no effect when paused; otherwise decrements one second
with borrow across seconds, minutes and hours; when remaining is already
exhausted it pauses and reports finished (the Bool component). -/
def tick (s : TimerState) : TimerState × Bool :=
  if s.isPaused then
    (s, false)
  else if 0 < s.currentSeconds then
    ({ s with currentSeconds := s.currentSeconds - 1 }, false)
  else if 0 < s.currentMinutes then
    ({ s with currentMinutes := s.currentMinutes - 1, currentSeconds := 59 }, false)
  else if 0 < s.currentHours then
    ({ s with
        currentHours := s.currentHours - 1
        currentMinutes := 59
        currentSeconds := 59 }, false)
  else
    ({ s with isPaused := true }, true)

/-- TimerState.shouldTakeLongBreak: the current cycle count is positive and
its JavaScript remainder by cyclesBeforeLongBreak is zero. -/
def shouldTakeLongBreak (raw : RawConfig) (s : TimerState) : Bool :=
  let config := getConfig raw
  decide (0 < s.currentCycle) &&
    decide (Int.tmod s.currentCycle config.cyclesBeforeLongBreak = 0)

/-- TimerState.switchPhase: pauses, advances the phase (WORK increments the
cycle counter and goes to a break chosen by shouldTakeLongBreak on the
post-increment count; any break returns to WORK), reloads remaining with the
new phase duration, and unpauses again when autoStart is set. -/
def switchPhase (raw : RawConfig) (autoStart : Bool) (s : TimerState) : TimerState :=
  let s1 := { s with isPaused := true }
  let s2 :=
    if s1.phase = TimerPhase.work then
      let s1a := { s1 with currentCycle := s1.currentCycle + 1 }
      { s1a with
          phase :=
            if shouldTakeLongBreak raw s1a then TimerPhase.longBreak
            else TimerPhase.shortBreak }
    else
      { s1 with phase := TimerPhase.work }
  let config := getConfig raw
  let s3 :=
    { s2 with
        currentHours := 0
        currentSeconds := 0
        currentMinutes :=
          match s2.phase with
          | TimerPhase.work => config.workTime
          | TimerPhase.shortBreak => config.breakTime
          | TimerPhase.longBreak => config.longBreakTime }
  if autoStart then { s3 with isPaused := false } else s3

/-- The statistics-update block at the top of
TimerState.handlePhaseCompletion: a completed WORK phase bumps the completed
cycle count and the work minutes; a completed break adds the matching break
duration to the break minutes. -/
def updateStats (raw : RawConfig) (s : TimerState) : TimerState :=
  let config := getConfig raw
  if s.phase = TimerPhase.work then
    { s with
        dailyStats :=
          { s.dailyStats with
              completedWorkCycles := s.dailyStats.completedWorkCycles + 1
              totalWorkTime := s.dailyStats.totalWorkTime + config.workTime } }
  else
    let breakTime :=
      if s.phase = TimerPhase.longBreak then config.longBreakTime
      else config.breakTime
    { s with
        dailyStats :=
          { s.dailyStats with
              totalBreakTime := s.dailyStats.totalBreakTime + breakTime } }

/-- Observable side effects of TimerState.handlePhaseCompletion.
corePromptShown records that the method called showInformationMessage with a
Start Next Phase action button (the button click triggers switchPhase with
autoStart); autoAdvanced records that the method itself called switchPhase
because autoStartNextPhase is configured. -/
structure CompletionEffects where
  corePromptShown : Bool
  autoAdvanced : Bool
  deriving DecidableEq, Repr

/-- TimerState.handlePhaseCompletion: updates the statistics for the phase
that just finished, shows the completion notification when showNotifications
is set, and calls switchPhase with autoStart when autoStartNextPhase is
set. -/
def handlePhaseCompletion (raw : RawConfig) (s : TimerState) :
    TimerState × CompletionEffects :=
  let config := getConfig raw
  let s1 := updateStats raw s
  let s2 := if config.autoStartNextPhase then switchPhase raw true s1 else s1
  (s2,
   { corePromptShown := config.showNotifications
     autoAdvanced := config.autoStartNextPhase })

/-- PomodoroView.handlePhaseCompletion: when notifications are on and
autoStartNextPhase is off it awaits the NotificationManager confirmation
prompt and calls switchPhase with autoStart only if the user confirms.  The
Bool component records whether that confirmation prompt was shown;
userConfirms is the user's answer to it. -/
def viewHandlePhaseCompletion (raw : RawConfig) (userConfirms : Bool)
    (s : TimerState) : TimerState × Bool :=
  let config := getConfig raw
  if config.showNotifications && !config.autoStartNextPhase then
    (if userConfirms then switchPhase raw true s else s, true)
  else
    (s, false)

/-- The VS Code globalState slots the timer reads and writes, one Option per
key; none means the key is absent and the documented default applies. -/
structure Store where
  currentHours : Option Int
  currentMinutes : Option Int
  currentSeconds : Option Int
  isPaused : Option Bool
  phase : Option TimerPhase
  currentCycle : Option Int
  dailyStats : Option DailyStats
  weeklyStats : Option (List DailyStats)
  deriving DecidableEq, Repr

/-- TimerState.saveState: writes every session field (including dailyStats)
back to the store. -/
def saveState (s : TimerState) (store : Store) : Store :=
  { store with
      currentHours := some s.currentHours
      currentMinutes := some s.currentMinutes
      currentSeconds := some s.currentSeconds
      isPaused := some s.isPaused
      phase := some s.phase
      currentCycle := some s.currentCycle
      dailyStats := some s.dailyStats }

/-- TimerState.initDailyStats: reuses the stored statistics only when their
date is today, otherwise starts a fresh zeroed record for today. -/
def initDailyStats (today : String) (store : Store) : DailyStats :=
  match store.dailyStats with
  | none =>
    { date := today, completedWorkCycles := 0, totalWorkTime := 0, totalBreakTime := 0 }
  | some savedStats =>
    if savedStats.date = today then savedStats
    else
      { date := today, completedWorkCycles := 0, totalWorkTime := 0, totalBreakTime := 0 }

/-- Construction of a TimerState from the store: the constructor first runs
initDailyStats, then loadState reads every field with its default, and if
the loaded state was not paused loadState calls start. -/
def loadState (raw : RawConfig) (today : String) (store : Store) : TimerState :=
  let s0 : TimerState :=
    { currentHours := store.currentHours.getD 0
      currentMinutes := store.currentMinutes.getD 0
      currentSeconds := store.currentSeconds.getD 0
      isPaused := store.isPaused.getD true
      phase := store.phase.getD TimerPhase.work
      currentCycle := store.currentCycle.getD 0
      dailyStats := initDailyStats today store }
  if s0.isPaused then s0 else start raw s0

/-- TimerState.resetStatistics: replaces dailyStats with a fresh zeroed
record for today, writes it to the store, and empties the stored weekly
history.  No countdown field is touched. -/
def resetStatistics (today : String) (s : TimerState) (store : Store) :
    TimerState × Store :=
  let fresh : DailyStats :=
    { date := today, completedWorkCycles := 0, totalWorkTime := 0, totalBreakTime := 0 }
  ({ s with dailyStats := fresh },
   { store with dailyStats := some fresh, weeklyStats := some [] })

/-- State after n completed work rounds when running the machine by hand:
each round is the phase switch that enters the break followed by the phase
switch that returns to WORK. -/
def afterWorkCompletions (raw : RawConfig) (s : TimerState) : Nat → TimerState
  | 0 => s
  | n + 1 =>
    switchPhase raw false (switchPhase raw false (afterWorkCompletions raw s n))

/-- Raw configuration holding the documented defaults 25/5/15/4. -/
def defaultRaw : RawConfig :=
  ⟨25, 5, 15, 4, true, true, false, false, 5⟩

/-- A zeroed statistics record for a fixed sample day. -/
def zeroStats : DailyStats :=
  ⟨"2024-01-01", 0, 0, 0⟩

/-- Paused state with zero remaining time, used to instantiate theorems. -/
def pausedZeroState : TimerState :=
  ⟨0, 0, 0, true, TimerPhase.work, 0, zeroStats⟩

/-- Running state with one second left, used to instantiate theorems. -/
def runningOneSecState : TimerState :=
  ⟨0, 0, 1, false, TimerPhase.work, 0, zeroStats⟩

/- ------------------------------------------------------------------ -/
/- Helper lemmas -/
/- ------------------------------------------------------------------ -/

theorem switchPhase_dailyStats (raw : RawConfig) (a : Bool) (s : TimerState) :
    (switchPhase raw a s).dailyStats = s.dailyStats := by
  obtain ⟨ch, cm, cs, ip, ph, cc, ds⟩ := s
  cases a <;> cases ph <;>
    simp [switchPhase, apply_ite TimerState.dailyStats]

theorem switchPhase_hours_seconds (raw : RawConfig) (a : Bool) (s : TimerState) :
    (switchPhase raw a s).currentHours = 0 ∧
    (switchPhase raw a s).currentSeconds = 0 := by
  obtain ⟨ch, cm, cs, ip, ph, cc, ds⟩ := s
  cases a <;> cases ph <;>
    simp [switchPhase, apply_ite TimerState.currentHours,
      apply_ite TimerState.currentSeconds]

theorem switchPhase_minutes (raw : RawConfig) (a : Bool) (s : TimerState) :
    (switchPhase raw a s).currentMinutes =
      phaseDuration (getConfig raw) (switchPhase raw a s).phase := by
  obtain ⟨ch, cm, cs, ip, ph, cc, ds⟩ := s
  cases a <;> cases ph <;> simp [switchPhase, phaseDuration]

theorem switchPhase_work_phase (raw : RawConfig) (a : Bool) (s : TimerState)
    (h : s.phase = TimerPhase.work) :
    (switchPhase raw a s).currentCycle = s.currentCycle + 1 ∧
    (switchPhase raw a s).phase =
      (if 0 < s.currentCycle + 1 ∧
          Int.tmod (s.currentCycle + 1) (getConfig raw).cyclesBeforeLongBreak = 0
       then TimerPhase.longBreak else TimerPhase.shortBreak) := by
  obtain ⟨ch, cm, cs, ip, ph, cc, ds⟩ := s
  subst h
  cases a <;>
    simp [switchPhase, shouldTakeLongBreak, getConfig,
      apply_ite TimerState.currentCycle, apply_ite TimerState.phase,
      Bool.and_eq_true, decide_eq_true_eq]

theorem switchPhase_notwork (raw : RawConfig) (a : Bool) (s : TimerState)
    (h : ¬s.phase = TimerPhase.work) :
    (switchPhase raw a s).phase = TimerPhase.work ∧
    (switchPhase raw a s).currentCycle = s.currentCycle := by
  obtain ⟨ch, cm, cs, ip, ph, cc, ds⟩ := s
  cases a <;> cases ph <;> simp_all [switchPhase,
    apply_ite TimerState.currentCycle, apply_ite TimerState.phase]

theorem updateStats_frame (raw : RawConfig) (s : TimerState) :
    (updateStats raw s).currentHours = s.currentHours ∧
    (updateStats raw s).currentMinutes = s.currentMinutes ∧
    (updateStats raw s).currentSeconds = s.currentSeconds ∧
    (updateStats raw s).isPaused = s.isPaused ∧
    (updateStats raw s).phase = s.phase ∧
    (updateStats raw s).currentCycle = s.currentCycle := by
  simp only [updateStats]
  split <;> simp

/- ------------------------------------------------------------------ -/
/- Claim theorems -/
/- ------------------------------------------------------------------ -/

/-- C4: from any session state, reset yields zero remaining time (hours,
minutes and seconds all zero), phase WORK, not running, and cycle count
zero. -/
theorem reset_spec (s : TimerState) :
    (reset s).currentHours = 0 ∧ (reset s).currentMinutes = 0 ∧
    (reset s).currentSeconds = 0 ∧ (reset s).phase = TimerPhase.work ∧
    (reset s).isPaused = true ∧ (reset s).currentCycle = 0 := by
  simp [reset]

/-- C5: when remaining is all-zero, start produces the same state as
restart; otherwise start only clears the paused flag (running becomes true)
and leaves remaining, phase and cycle count unchanged. -/
theorem start_restart_spec (raw : RawConfig) (s : TimerState) :
    (s.currentHours = 0 ∧ s.currentMinutes = 0 ∧ s.currentSeconds = 0 →
      start raw s = restart raw s) ∧
    (¬(s.currentHours = 0 ∧ s.currentMinutes = 0 ∧ s.currentSeconds = 0) →
      (start raw s).isPaused = false ∧
      (start raw s).currentHours = s.currentHours ∧
      (start raw s).currentMinutes = s.currentMinutes ∧
      (start raw s).currentSeconds = s.currentSeconds ∧
      (start raw s).phase = s.phase ∧
      (start raw s).currentCycle = s.currentCycle ∧
      (start raw s).dailyStats = s.dailyStats) := by
  constructor
  · intro h
    simp [start, h]
  · intro h
    simp [start, h]

/-- Witness for C5: applying the theorem at an all-zero paused state and at
a one-second running state. -/
theorem start_restart_spec_witness :
    start defaultRaw pausedZeroState = restart defaultRaw pausedZeroState ∧
    (start defaultRaw runningOneSecState).currentSeconds = 1 :=
  ⟨(start_restart_spec defaultRaw pausedZeroState).1 (by decide),
   ((start_restart_spec defaultRaw runningOneSecState).2 (by decide)).2.2.2.1.trans
     (by decide)⟩

/-- C2: on a running session, tick from 00:00:01 yields 00:00:00 with
finished false and the session still running; tick with remaining already
00:00:00 yields finished true and pauses the session; in all other cases
tick decrements one second with borrow across seconds, minutes and hours. -/
theorem tick_spec (s : TimerState) (h : s.isPaused = false) :
    (s.currentHours = 0 ∧ s.currentMinutes = 0 ∧ s.currentSeconds = 1 →
      (tick s).1.currentHours = 0 ∧ (tick s).1.currentMinutes = 0 ∧
      (tick s).1.currentSeconds = 0 ∧ (tick s).2 = false ∧
      (tick s).1.isPaused = false) ∧
    (s.currentHours = 0 ∧ s.currentMinutes = 0 ∧ s.currentSeconds = 0 →
      (tick s).2 = true ∧ (tick s).1.isPaused = true) ∧
    (0 < s.currentSeconds →
      (tick s).1 = { s with currentSeconds := s.currentSeconds - 1 } ∧
      (tick s).2 = false) ∧
    (¬0 < s.currentSeconds → 0 < s.currentMinutes →
      (tick s).1 =
        { s with currentMinutes := s.currentMinutes - 1, currentSeconds := 59 } ∧
      (tick s).2 = false) ∧
    (¬0 < s.currentSeconds → ¬0 < s.currentMinutes → 0 < s.currentHours →
      (tick s).1 =
        { s with
            currentHours := s.currentHours - 1
            currentMinutes := 59
            currentSeconds := 59 } ∧
      (tick s).2 = false) := by
  obtain ⟨ch, cm, cs, ip, ph, cc, ds⟩ := s
  simp only at h
  subst h
  refine ⟨?_, ?_, ?_, ?_, ?_⟩
  · rintro ⟨h1, h2, h3⟩
    simp only at h1 h2 h3
    subst h1; subst h2; subst h3
    simp [tick]
  · rintro ⟨h1, h2, h3⟩
    simp only at h1 h2 h3
    subst h1; subst h2; subst h3
    simp [tick]
  · intro h1
    simp only at h1
    simp [tick, h1]
  · intro h1 h2
    simp only at h1 h2
    simp [tick, h1, h2]
  · intro h1 h2 h3
    simp only at h1 h2 h3
    simp [tick, h1, h2, h3]

/-- Witness for C2: from 00:00:01 running, tick reaches 00:00:00 without
finishing, and a second tick finishes and pauses. -/
theorem tick_spec_witness :
    ((tick runningOneSecState).1.currentSeconds = 0 ∧
      (tick runningOneSecState).2 = false) ∧
    ((tick (tick runningOneSecState).1).2 = true ∧
      (tick (tick runningOneSecState).1).1.isPaused = true) :=
  ⟨⟨((tick_spec runningOneSecState rfl).1 (by decide)).2.2.1,
    ((tick_spec runningOneSecState rfl).1 (by decide)).2.2.2.1⟩,
   (tick_spec (tick runningOneSecState).1 (by decide)).2.1 (by decide)⟩

/-- C6: the statistics update of a phase completion: a completed WORK phase
increments completedWorkCycles and adds the configured work duration to
totalWorkTime; a completed BREAK or LONG_BREAK adds the matching configured
break duration to totalBreakTime; no other statistics field changes. -/
theorem completion_stats_spec (raw : RawConfig) (s : TimerState) :
    (handlePhaseCompletion raw s).1.dailyStats =
      (match s.phase with
       | TimerPhase.work =>
         { s.dailyStats with
             completedWorkCycles := s.dailyStats.completedWorkCycles + 1
             totalWorkTime := s.dailyStats.totalWorkTime + (getConfig raw).workTime }
       | TimerPhase.shortBreak =>
         { s.dailyStats with
             totalBreakTime := s.dailyStats.totalBreakTime + (getConfig raw).breakTime }
       | TimerPhase.longBreak =>
         { s.dailyStats with
             totalBreakTime := s.dailyStats.totalBreakTime + (getConfig raw).longBreakTime }) := by
  have hs : (handlePhaseCompletion raw s).1.dailyStats =
      (updateStats raw s).dailyStats := by
    simp only [handlePhaseCompletion]
    split
    · exact switchPhase_dailyStats raw true (updateStats raw s)
    · rfl
  rw [hs]
  obtain ⟨ch, cm, cs, ip, ph, cc, ds⟩ := s
  cases ph <;> simp [updateStats]

/-- C7: every configuration read through getConfig has its numeric entries
clamped to at least one, so the cycle divisor used by shouldTakeLongBreak is
never zero. -/
theorem getConfig_clamped (raw : RawConfig) :
    1 ≤ (getConfig raw).workTime ∧ 1 ≤ (getConfig raw).breakTime ∧
    1 ≤ (getConfig raw).longBreakTime ∧
    1 ≤ (getConfig raw).cyclesBeforeLongBreak ∧
    1 ≤ (getConfig raw).inactivityThreshold ∧
    (getConfig raw).cyclesBeforeLongBreak ≠ 0 := by
  refine ⟨le_max_left _ _, le_max_left _ _, le_max_left _ _, le_max_left _ _,
    le_max_left _ _, ?_⟩
  have h : (1 : Int) ≤ max 1 raw.cyclesBeforeLongBreak := le_max_left _ _
  simp only [getConfig]
  omega

/-- C10: resetStatistics replaces the daily statistics with a fresh zeroed
record for today, persists it, empties the stored weekly history, and leaves
the countdown fields, the paused flag, the phase and the cycle count
unchanged. -/
theorem resetStatistics_spec (today : String) (s : TimerState) (store : Store) :
    (resetStatistics today s store).1.dailyStats =
      { date := today, completedWorkCycles := 0, totalWorkTime := 0,
        totalBreakTime := 0 } ∧
    (resetStatistics today s store).2.dailyStats =
      some { date := today, completedWorkCycles := 0, totalWorkTime := 0,
             totalBreakTime := 0 } ∧
    (resetStatistics today s store).2.weeklyStats = some [] ∧
    (resetStatistics today s store).1.currentHours = s.currentHours ∧
    (resetStatistics today s store).1.currentMinutes = s.currentMinutes ∧
    (resetStatistics today s store).1.currentSeconds = s.currentSeconds ∧
    (resetStatistics today s store).1.isPaused = s.isPaused ∧
    (resetStatistics today s store).1.phase = s.phase ∧
    (resetStatistics today s store).1.currentCycle = s.currentCycle := by
  simp [resetStatistics]

theorem one_le_cycles (raw : RawConfig) :
    1 ≤ (getConfig raw).cyclesBeforeLongBreak :=
  le_max_left _ _

theorem pos_tmod_eq_zero_iff (x N : Int) (hN : 1 ≤ N) (hx : 0 < x) :
    Int.tmod x N = 0 ↔ N ∣ x := by
  rw [Int.tmod_eq_emod (le_of_lt hx) (by omega)]
  exact EuclideanDomain.mod_eq_zero

theorem afterWorkCompletions_work (raw : RawConfig) (s : TimerState)
    (h : s.phase = TimerPhase.work) (n : Nat) :
    (afterWorkCompletions raw s n).phase = TimerPhase.work ∧
    (afterWorkCompletions raw s n).currentCycle = s.currentCycle + n := by
  induction n with
  | zero =>
    refine ⟨h, ?_⟩
    simp [afterWorkCompletions]
  | succ n ih =>
    obtain ⟨ihp, ihc⟩ := ih
    obtain ⟨hcy, hph⟩ :=
      switchPhase_work_phase raw false (afterWorkCompletions raw s n) ihp
    have hnw :
        ¬(switchPhase raw false (afterWorkCompletions raw s n)).phase =
          TimerPhase.work := by
      rw [hph]
      split <;> simp
    obtain ⟨h2p, h2c⟩ := switchPhase_notwork raw false _ hnw
    refine ⟨?_, ?_⟩
    · show (switchPhase raw false (switchPhase raw false
        (afterWorkCompletions raw s n))).phase = TimerPhase.work
      exact h2p
    · show (switchPhase raw false (switchPhase raw false
        (afterWorkCompletions raw s n))).currentCycle = _
      rw [h2c, hcy, ihc]
      push_cast
      ring

/-- C1: a phase switch from WORK increments the cycle count and enters the
long break exactly when the post-increment count is positive and divisible
by the configured cyclesBeforeLongBreak, else the short break; a switch from
either break always returns to WORK with the cycle count unchanged; in every
case remaining reloads to the new phase duration with hours and seconds
zero.  Consequently, from a fresh WORK state the Nth work completion enters
the long break and the earlier ones the short break. -/
theorem switchPhase_cadence (raw : RawConfig) (auto : Bool) (s : TimerState) :
    (s.phase = TimerPhase.work →
      (switchPhase raw auto s).currentCycle = s.currentCycle + 1 ∧
      ((switchPhase raw auto s).phase = TimerPhase.longBreak ↔
        0 < s.currentCycle + 1 ∧
          (getConfig raw).cyclesBeforeLongBreak ∣ (s.currentCycle + 1)) ∧
      ((switchPhase raw auto s).phase = TimerPhase.shortBreak ↔
        ¬(0 < s.currentCycle + 1 ∧
          (getConfig raw).cyclesBeforeLongBreak ∣ (s.currentCycle + 1)))) ∧
    (¬s.phase = TimerPhase.work →
      (switchPhase raw auto s).phase = TimerPhase.work ∧
      (switchPhase raw auto s).currentCycle = s.currentCycle) ∧
    ((switchPhase raw auto s).currentHours = 0 ∧
     (switchPhase raw auto s).currentSeconds = 0 ∧
     (switchPhase raw auto s).currentMinutes =
       phaseDuration (getConfig raw) ((switchPhase raw auto s).phase)) ∧
    (s.phase = TimerPhase.work → s.currentCycle = 0 →
      ∀ j : Nat, 1 ≤ j → (j : Int) ≤ (getConfig raw).cyclesBeforeLongBreak →
        (switchPhase raw false (afterWorkCompletions raw s (j - 1))).phase =
          (if (j : Int) = (getConfig raw).cyclesBeforeLongBreak
           then TimerPhase.longBreak else TimerPhase.shortBreak)) := by
  have hN : 1 ≤ (getConfig raw).cyclesBeforeLongBreak := one_le_cycles raw
  refine ⟨?_, ?_, ?_, ?_⟩
  · intro h
    obtain ⟨hcy, hph⟩ := switchPhase_work_phase raw auto s h
    have hiff : (0 < s.currentCycle + 1 ∧
        Int.tmod (s.currentCycle + 1) (getConfig raw).cyclesBeforeLongBreak = 0) ↔
        (0 < s.currentCycle + 1 ∧
          (getConfig raw).cyclesBeforeLongBreak ∣ (s.currentCycle + 1)) := by
      constructor
      · rintro ⟨ha, hb⟩
        exact ⟨ha, (pos_tmod_eq_zero_iff _ _ hN ha).1 hb⟩
      · rintro ⟨ha, hb⟩
        exact ⟨ha, (pos_tmod_eq_zero_iff _ _ hN ha).2 hb⟩
    refine ⟨hcy, ?_, ?_⟩
    · rw [hph]
      split <;> rename_i hc
      · exact iff_of_true rfl (hiff.1 hc)
      · exact iff_of_false (by simp) (fun hd => hc (hiff.2 hd))
    · rw [hph]
      split <;> rename_i hc
      · exact iff_of_false (by simp) (fun hnd => hnd (hiff.1 hc))
      · exact iff_of_true rfl (fun hd => hc (hiff.2 hd))
  · exact fun h => switchPhase_notwork raw auto s h
  · exact ⟨(switchPhase_hours_seconds raw auto s).1,
      (switchPhase_hours_seconds raw auto s).2,
      switchPhase_minutes raw auto s⟩
  · intro hw hc0 j hj1 hjN
    obtain ⟨hwph, hwcy⟩ := afterWorkCompletions_work raw s hw (j - 1)
    obtain ⟨-, hph⟩ := switchPhase_work_phase raw false _ hwph
    rw [hph, hwcy, hc0]
    have hcast : (((j - 1 : Nat) : Int)) + 1 = (j : Int) := by omega
    rw [zero_add, hcast]
    by_cases hEq : (j : Int) = (getConfig raw).cyclesBeforeLongBreak
    · rw [if_pos hEq, if_pos]
      refine ⟨by omega, ?_⟩
      rw [hEq]
      exact Int.tmod_self
    · rw [if_neg hEq, if_neg]
      rintro ⟨hpos, hmod⟩
      have hlt : (j : Int) < (getConfig raw).cyclesBeforeLongBreak :=
        lt_of_le_of_ne hjN hEq
      rw [Int.tmod_eq_emod (le_of_lt hpos) (by omega)] at hmod
      rw [Int.emod_eq_of_lt (le_of_lt hpos) hlt] at hmod
      omega

/-- Witness for C1: with the default configuration (four cycles before a
long break) the fourth work completion from a fresh state enters the long
break and the first enters the short break. -/
theorem switchPhase_cadence_witness :
    (switchPhase defaultRaw false
        (afterWorkCompletions defaultRaw pausedZeroState 3)).phase =
      TimerPhase.longBreak ∧
    (switchPhase defaultRaw false pausedZeroState).phase =
      TimerPhase.shortBreak := by
  constructor
  · exact ((switchPhase_cadence defaultRaw false pausedZeroState).2.2.2
      rfl rfl 4 (by decide) (by decide)).trans (by decide)
  · exact ((switchPhase_cadence defaultRaw false pausedZeroState).2.2.2
      rfl rfl 1 (by decide) (by decide)).trans (by decide)

/-- Raw configuration with notifications and auto-start both enabled. -/
def autoNotifyRaw : RawConfig :=
  ⟨25, 5, 15, 4, true, true, true, false, 5⟩

/-- C3 counterexample: with showNotifications and autoStartNextPhase both
configured true, a phase completion auto-advances and still shows the core
notification prompt carrying a Start Next Phase action (whose click calls
switchPhase), contradicting the claim that no confirmation prompt is shown
when autoStartNextPhase is true. -/
theorem completion_prompt_counterexample :
    (getConfig autoNotifyRaw).autoStartNextPhase = true ∧
    (handlePhaseCompletion autoNotifyRaw pausedZeroState).2.autoAdvanced = true ∧
    (handlePhaseCompletion autoNotifyRaw pausedZeroState).2.corePromptShown = true := by
  decide

/-- C3 amended: with autoStartNextPhase configured true the completion
handler itself calls switchPhase with autoStart and the view-level
confirmation flow is skipped, but the core notification with its Start Next
Phase action is still shown whenever showNotifications is set; with
autoStartNextPhase false the handler leaves phase and cycle unchanged, and
switchPhase runs only on explicit user confirmation. -/
theorem completion_advance_spec (raw : RawConfig) (s : TimerState)
    (userConfirms : Bool) :
    ((getConfig raw).autoStartNextPhase = true →
      (handlePhaseCompletion raw s).2.autoAdvanced = true ∧
      (handlePhaseCompletion raw s).1 = switchPhase raw true (updateStats raw s) ∧
      (viewHandlePhaseCompletion raw userConfirms (handlePhaseCompletion raw s).1).2
        = false ∧
      (handlePhaseCompletion raw s).2.corePromptShown =
        (getConfig raw).showNotifications) ∧
    ((getConfig raw).autoStartNextPhase = false →
      (handlePhaseCompletion raw s).2.autoAdvanced = false ∧
      (handlePhaseCompletion raw s).1 = updateStats raw s ∧
      (handlePhaseCompletion raw s).1.phase = s.phase ∧
      (handlePhaseCompletion raw s).1.currentCycle = s.currentCycle ∧
      (userConfirms = false →
        (viewHandlePhaseCompletion raw userConfirms
            (handlePhaseCompletion raw s).1).1 =
          (handlePhaseCompletion raw s).1) ∧
      ((getConfig raw).showNotifications = true → userConfirms = true →
        (viewHandlePhaseCompletion raw userConfirms
            (handlePhaseCompletion raw s).1).1 =
          switchPhase raw true (handlePhaseCompletion raw s).1)) := by
  constructor
  · intro h
    refine ⟨by simp [handlePhaseCompletion, h], by simp [handlePhaseCompletion, h],
      ?_, by simp [handlePhaseCompletion]⟩
    simp [viewHandlePhaseCompletion, h]
  · intro h
    have h1 : (handlePhaseCompletion raw s).1 = updateStats raw s := by
      simp [handlePhaseCompletion, h]
    refine ⟨by simp [handlePhaseCompletion, h], h1, ?_, ?_, ?_, ?_⟩
    · rw [h1]
      exact (updateStats_frame raw s).2.2.2.2.1
    · rw [h1]
      exact (updateStats_frame raw s).2.2.2.2.2
    · intro hu
      simp only [viewHandlePhaseCompletion, hu]
      split <;> simp
    · intro hn hu
      simp [viewHandlePhaseCompletion, h, hn, hu]

/-- Witness for C3 amended: an auto-start configuration auto-advances, and
the default configuration leaves the phase unchanged on completion. -/
theorem completion_advance_spec_witness :
    (handlePhaseCompletion autoNotifyRaw pausedZeroState).2.autoAdvanced = true ∧
    (handlePhaseCompletion defaultRaw pausedZeroState).1.phase =
      pausedZeroState.phase :=
  ⟨((completion_advance_spec autoNotifyRaw pausedZeroState false).1 (by decide)).1,
   ((completion_advance_spec defaultRaw pausedZeroState false).2 (by decide)).2.2.1⟩

/-- Non-negativity of the three remaining-time components. -/
def nonnegRemaining (s : TimerState) : Prop :=
  0 ≤ s.currentHours ∧ 0 ≤ s.currentMinutes ∧ 0 ≤ s.currentSeconds

/-- One application of a timer-core operation from the spec state machine,
with an arbitrary raw configuration wherever the operation reads one. -/
inductive Step : TimerState → TimerState → Prop where
  | ofStart (raw : RawConfig) (s : TimerState) : Step s (start raw s)
  | ofPause (s : TimerState) : Step s (pause s)
  | ofResume (raw : RawConfig) (s : TimerState) : Step s (resume raw s)
  | ofRestart (raw : RawConfig) (s : TimerState) : Step s (restart raw s)
  | ofReset (s : TimerState) : Step s (reset s)
  | ofTick (s : TimerState) : Step s (tick s).1
  | ofSwitchPhase (raw : RawConfig) (a : Bool) (s : TimerState) :
      Step s (switchPhase raw a s)

/-- Reachability by any sequence of timer-core operations. -/
def Reachable (s0 s : TimerState) : Prop :=
  Relation.ReflTransGen Step s0 s

theorem restart_nonneg (raw : RawConfig) (s : TimerState) :
    nonnegRemaining (restart raw s) := by
  obtain ⟨ch, cm, cs, ip, ph, cc, ds⟩ := s
  cases ph <;>
    exact ⟨le_refl 0, le_trans zero_le_one (le_max_left _ _), le_refl 0⟩

theorem start_nonneg (raw : RawConfig) (s : TimerState)
    (h : nonnegRemaining s) : nonnegRemaining (start raw s) := by
  by_cases hz : s.currentHours = 0 ∧ s.currentMinutes = 0 ∧ s.currentSeconds = 0
  · rw [start, if_pos hz]
    exact restart_nonneg raw s
  · rw [start, if_neg hz]
    exact h

theorem switchPhase_nonneg (raw : RawConfig) (a : Bool) (s : TimerState) :
    nonnegRemaining (switchPhase raw a s) := by
  obtain ⟨hh, hs⟩ := switchPhase_hours_seconds raw a s
  refine ⟨by rw [hh], ?_, by rw [hs]⟩
  rw [switchPhase_minutes raw a s]
  rcases hph : (switchPhase raw a s).phase <;>
    simp [phaseDuration, getConfig, le_max_iff]

theorem tick_nonneg (s : TimerState) (h : nonnegRemaining s) :
    nonnegRemaining (tick s).1 := by
  obtain ⟨h1, h2, h3⟩ := h
  by_cases hp : s.isPaused
  · simp only [tick, hp, if_true]
    exact ⟨h1, h2, h3⟩
  · by_cases hs : 0 < s.currentSeconds
    · simp [tick, hp, hs]
      exact ⟨h1, h2, show (0 : Int) ≤ s.currentSeconds - 1 by omega⟩
    · by_cases hm : 0 < s.currentMinutes
      · simp [tick, hp, hs, hm]
        exact ⟨h1, show (0 : Int) ≤ s.currentMinutes - 1 by omega,
          show (0 : Int) ≤ 59 by norm_num⟩
      · by_cases hh : 0 < s.currentHours
        · simp [tick, hp, hs, hm, hh]
          exact ⟨show (0 : Int) ≤ s.currentHours - 1 by omega,
            show (0 : Int) ≤ 59 by norm_num, show (0 : Int) ≤ 59 by norm_num⟩
        · simp [tick, hp, hs, hm, hh]
          exact ⟨h1, h2, h3⟩

theorem step_nonneg {s t : TimerState} (hst : Step s t)
    (h : nonnegRemaining s) : nonnegRemaining t := by
  cases hst with
  | ofStart raw s => exact start_nonneg raw s h
  | ofPause s => exact h
  | ofResume raw s => exact start_nonneg raw s h
  | ofRestart raw s => exact restart_nonneg raw s
  | ofReset s => exact ⟨le_refl 0, le_refl 0, le_refl 0⟩
  | ofTick s => exact tick_nonneg s h
  | ofSwitchPhase raw a s => exact switchPhase_nonneg raw a s

theorem reachable_nonneg {s0 s : TimerState} (h0 : nonnegRemaining s0)
    (hr : Reachable s0 s) : nonnegRemaining s := by
  induction hr with
  | refl => exact h0
  | tail hab hstep ih => exact step_nonneg hstep ih

theorem tick_phase (s : TimerState) : (tick s).1.phase = s.phase := by
  obtain ⟨ch, cm, cs, ip, ph, cc, ds⟩ := s
  cases ip
  · simp [tick]
    split_ifs <;> rfl
  · simp [tick]

theorem start_phase (raw : RawConfig) (s : TimerState) :
    (start raw s).phase = s.phase := by
  rw [start]
  split <;> rfl

/-- Sample state sitting in a short break, used to instantiate theorems. -/
def breakPhaseState : TimerState :=
  ⟨0, 5, 0, true, TimerPhase.shortBreak, 1, zeroStats⟩

/-- C8 counterexample: reset is an operation other than switchPhase that
changes the phase: resetting from a break forces the phase back to WORK, so
the parenthetical claim that only switchPhase changes the phase fails. -/
theorem reset_changes_phase_counterexample :
    (reset breakPhaseState).phase ≠ breakPhaseState.phase := by
  decide

/-- C8 amended: every state reachable from a state with non-negative
remaining time again has non-negative remaining components; tick never
changes the phase, and on a running state with remaining zero it reports
finished and pauses; start, pause, resume and restart also leave the phase
unchanged, and besides switchPhase the only phase-modifying operation is
reset, which forces the phase to WORK. -/
theorem reachable_invariant (s0 s : TimerState) (h0 : nonnegRemaining s0)
    (hr : Reachable s0 s) :
    nonnegRemaining s ∧
    (tick s).1.phase = s.phase ∧
    (s.isPaused = false →
      s.currentHours = 0 ∧ s.currentMinutes = 0 ∧ s.currentSeconds = 0 →
      (tick s).1.isPaused = true ∧ (tick s).2 = true) ∧
    (∀ raw, (start raw s).phase = s.phase) ∧
    (pause s).phase = s.phase ∧
    (∀ raw, (restart raw s).phase = s.phase) ∧
    (reset s).phase = TimerPhase.work := by
  refine ⟨reachable_nonneg h0 hr, tick_phase s, ?_,
    fun raw => start_phase raw s, rfl, fun raw => rfl, rfl⟩
  intro hp hz
  obtain ⟨h1, h2, h3⟩ := hz
  simp [tick, hp, h1, h2, h3]

/-- Witness for C8 amended: instantiated at the paused zero state, which is
trivially reachable from itself. -/
theorem reachable_invariant_witness :
    nonnegRemaining pausedZeroState ∧
    (tick pausedZeroState).1.phase = pausedZeroState.phase :=
  ⟨⟨by decide, by decide, by decide⟩,
   (reachable_invariant pausedZeroState pausedZeroState
      ⟨by decide, by decide, by decide⟩ Relation.ReflTransGen.refl).2.1⟩

/-- Store with every key absent. -/
def emptyStore : Store :=
  ⟨none, none, none, none, none, none, none, none⟩

/-- Running state with zero remaining time (reachable: the tick from
00:00:01 saves exactly this shape). -/
def runningZeroState : TimerState :=
  ⟨0, 0, 0, false, TimerPhase.work, 0, zeroStats⟩

/-- C9 counterexample: a snapshot saved while running with all-zero
remaining does not round-trip: loading calls start, which restarts the
timer with the full configured work duration instead of the stored zeros. -/
theorem persistence_roundtrip_counterexample :
    loadState defaultRaw "2024-01-01" (saveState runningZeroState emptyStore) ≠
      runningZeroState := by
  decide

/-- C9 amended: saving and reloading reproduces the snapshot exactly
whenever the saved daily statistics carry the load-time date and the
snapshot is not simultaneously running with all-zero remaining time. -/
theorem persistence_roundtrip (raw : RawConfig) (today : String)
    (s : TimerState) (store : Store) (hdate : s.dailyStats.date = today)
    (hrun : s.isPaused = true ∨
      ¬(s.currentHours = 0 ∧ s.currentMinutes = 0 ∧ s.currentSeconds = 0)) :
    loadState raw today (saveState s store) = s := by
  obtain ⟨ch, cm, cs, ip, ph, cc, ds⟩ := s
  simp only at hdate
  cases ip
  · rcases hrun with h | h
    · simp at h
    · simp only at h
      simp [loadState, saveState, initDailyStats, hdate, start, h]
  · simp [loadState, saveState, initDailyStats, hdate]

/-- Witness for C9 amended: a paused snapshot with matching statistics date
round-trips exactly. -/
theorem persistence_roundtrip_witness :
    loadState defaultRaw "2024-01-01" (saveState pausedZeroState emptyStore) =
      pausedZeroState :=
  persistence_roundtrip defaultRaw "2024-01-01" pausedZeroState emptyStore rfl
    (Or.inl rfl)

end Pomodoro
